import Mathlib

/-!
Verification of the Janus test-harness core against its specification.

The Python sources are shallowly embedded: strings are lists of characters,
subprocess/socket interactions are abstracted into explicit observation
records, and the stress loop becomes a fold over an event trace.  Every
definition is translated from the named source function; line references
point into the repository.
-/

namespace Janus

/-- Strings of the embedded program are lists of characters. -/
abbrev Str := List Char

/-- Python str.lower(), restricted to the ASCII range exercised by the
harness (Char.toLower lowercases exactly the ASCII uppercase letters). -/
def lowerStr (s : Str) : Str := s.map Char.toLower

/-- Python substring containment `needle in hay`. -/
def containsSub (needle hay : Str) : Bool :=
  hay.tails.any (fun t => needle.isPrefixOf t)

/-- ASCII whitespace, the fragment of the regex class backslash-s that the
harness output can contain (space, tab, LF, VT, FF, CR). -/
def isWsChar (c : Char) : Bool :=
  c == ' ' || c.toNat == 9 || c.toNat == 10 || c.toNat == 11 ||
  c.toNat == 12 || c.toNat == 13

/-- ASCII word characters, the fragment of the regex class backslash-w
that the harness output can contain. -/
def isWordChar (c : Char) : Bool :=
  (97 ≤ c.toNat && c.toNat ≤ 122) || (65 ≤ c.toNat && c.toNat ≤ 90) ||
  (48 ≤ c.toNat && c.toNat ≤ 57) || c == '_'

/-- Match the pattern Response: whitespace* Success= word+ anchored at the
start of the given text, returning the captured word run (greedy, as in the
regex used at src/tests/run_tests.py:888). -/
def matchMarkerAt (s : Str) : Option Str :=
  if ("Response:".toList).isPrefixOf s then
    let rest1 := s.drop (("Response:".toList).length)
    let rest2 := rest1.dropWhile isWsChar
    if ("Success=".toList).isPrefixOf rest2 then
      let w := (rest2.drop (("Success=".toList).length)).takeWhile isWordChar
      if w.isEmpty then none else some w
    else none
  else none

/-- re.search of Response: whitespace* Success= (word+): the leftmost
position where the whole pattern matches, with its capture
(src/tests/run_tests.py:888). -/
def findSuccessMarker : Str → Option Str
  | [] => none
  | c :: rest =>
    match matchMarkerAt (c :: rest) with
    | some w => some w
    | none => findSuccessMarker rest

/-- Classification of the captured sender output performed at
src/tests/run_tests.py:884-893: socket_success is false unless the exit
code is 0 and stdout is non-empty; then the first Success= marker decides,
and absence of a marker defaults to success. -/
def socketSuccess (returncode : Int) (stdout : Str) : Bool :=
  if returncode == 0 && !stdout.isEmpty then
    match findSuccessMarker stdout with
    | some w => lowerStr w == ("true".toList)
    | none => true
  else false

/-- A request pattern from the stress catalog
(src/tests/run_tests.py:556-591).  Absent dictionary keys take the
defaults used by pattern.get: expect_reply true, expect_error false. -/
structure Pattern where
  ptype : Str
  command : Str
  message : Str
  expect_reply : Bool := true
  expect_error : Bool := false
  timeoutSecs : Option Nat := none
deriving DecidableEq

/-- The response dictionary produced by _run_sender_with_enhanced_pattern
(src/tests/run_tests.py:895-926), with dictionary .get defaults applied:
absent stdout/stderr read as empty, absent success as false. -/
structure SenderResponse where
  success : Bool
  stdout : Str
  stderr : Str
  exit_code : Option Int
  pattern_type : Str
  cli_success : Bool
  error_type : Option Str
deriving DecidableEq

/-- Decimal rendering of a natural number, as Python str(int) produces. -/
def natStr (n : Nat) : Str :=
  if n = 0 then ['0'] else ((Nat.digits 10 n).map (fun d => Char.ofNat (48 + d))).reverse

/-- Decimal rendering of an integer, as Python str(int) produces. -/
def intStr (i : Int) : Str :=
  if i < 0 then '-' :: natStr i.natAbs else natStr i.natAbs

/-- The response built by _run_sender_with_enhanced_pattern from a sender
invocation that ran to completion with the given exit code and captured
output (src/tests/run_tests.py:895-911). -/
def mkEnhancedResponse (p : Pattern) (returncode : Int) (stdout stderr : Str) :
    SenderResponse :=
  let ss := socketSuccess returncode stdout
  let cli := returncode == 0
  { success := ss
    stdout := stdout
    stderr := stderr
    exit_code := some returncode
    pattern_type := p.ptype
    cli_success := cli
    error_type :=
      if !cli then some (("exit_code_".toList) ++ intStr returncode)
      else if cli && !ss then some ("socket_error".toList)
      else none }

/-- The response dictionary built when the sender invocation raises
subprocess.TimeoutExpired (src/tests/run_tests.py:913-919); keys absent
from the dictionary read back as their .get defaults. -/
def mkTimeoutResponse (p : Pattern) : SenderResponse :=
  { success := false
    stdout := []
    stderr := []
    exit_code := none
    pattern_type := p.ptype
    cli_success := false
    error_type := some ("timeout".toList) }

/-- The validation-failure markers scanned for in the malformed-JSON branch
of _evaluate_pattern_response (src/tests/run_tests.py:941-950). -/
def validationFailedMarker (stdout : Str) : Bool :=
  let lo := lowerStr stdout
  containsSub ("valid:false".toList) lo ||
  containsSub ("valid: false".toList) lo ||
  containsSub ("\"valid\":false".toList) lo ||
  containsSub ("\"valid\": false".toList) lo ||
  containsSub ("invalid json".toList) lo ||
  containsSub ("json format".toList) lo ||
  containsSub ("parse error".toList) lo ||
  containsSub ("malformed".toList) lo

/-- Translation of _evaluate_pattern_response
(src/tests/run_tests.py:928-999).  Note that in the malformed-JSON branch
the source binds the local cli_succeeded to response.get("success") — the
socket-level marker — not to the response's cli_success entry. -/
def evaluatePatternResponse (p : Pattern) (r : SenderResponse) : Bool :=
  if p.expect_error then
    if p.command == ("validate".toList) && p.ptype == ("malformed_json".toList) then
      r.success && validationFailedMarker r.stdout
    else if p.ptype == ("oversized_payload".toList) then
      !r.success &&
        (containsSub ("payload too large".toList) (lowerStr r.stderr) ||
         containsSub ("message too long".toList) (lowerStr r.stderr))
    else
      !r.success
  else if !p.expect_reply then
    r.success
  else if !r.success then
    false
  else if p.command == ("ping".toList) then
    containsSub ("pong".toList) (lowerStr r.stdout) ||
    containsSub ("success".toList) (lowerStr r.stdout)
  else if p.command == ("echo".toList) then
    containsSub p.message r.stdout
  else if p.command == ("get_info".toList) then
    containsSub ("implementation".toList) (lowerStr r.stdout) ||
    containsSub ("version".toList) (lowerStr r.stdout) ||
    containsSub ("success".toList) (lowerStr r.stdout)
  else if p.command == ("validate".toList) then
    containsSub ("valid".toList) (lowerStr r.stdout) ||
    containsSub ("true".toList) (lowerStr r.stdout) ||
    containsSub ("success".toList) (lowerStr r.stdout)
  else if p.command == ("slow_process".toList) then
    containsSub ("processed".toList) (lowerStr r.stdout) ||
    containsSub ("delay".toList) (lowerStr r.stdout) ||
    containsSub ("success".toList) (lowerStr r.stdout)
  else
    true

/-- The stress-test pattern catalog (src/tests/run_tests.py:556-591),
verbatim; absent expect_error keys default to false and absent timeout
keys to none, as in the source dictionaries. -/
def testPatterns : List Pattern :=
  [ { ptype := ("request_reply".toList), command := ("ping".toList), message := ("hello".toList) }
  , { ptype := ("request_reply".toList), command := ("echo".toList), message := ("test_message".toList) }
  , { ptype := ("request_reply".toList), command := ("get_info".toList), message := ("info_request".toList) }
  , { ptype := ("request_reply".toList), command := ("validate".toList), message := ("\x7b\"test\":\"data\"\x7d".toList) }
  , { ptype := ("large_payload".toList), command := ("echo".toList), message := (("large_".toList) ++ List.replicate 500 'x') }
  , { ptype := ("large_payload".toList), command := ("echo".toList), message := (("huge_".toList) ++ List.replicate 1000 'y') }
  , { ptype := ("special_chars".toList), command := ("echo".toList), message := ("special_!@#$%^&*()".toList) }
  , { ptype := ("unicode".toList), command := ("echo".toList), message := ("unicode_测试_🚀_émojis".toList) }
  , { ptype := ("json_payload".toList), command := ("validate".toList), message := ("\x7b\"nested\":\"json\",\"number\":42\x7d".toList) }
  , { ptype := ("complex_json".toList), command := ("validate".toList), message := ("\x7b\"data\":\x7b\"user\":\"test\",\"values\":[1,2,3]\x7d\x7d".toList) }
  , { ptype := ("invalid_command".toList), command := ("nonexistent_command".toList), message := ("test".toList), expect_error := true }
  , { ptype := ("malformed_json".toList), command := ("validate".toList), message := ("\x7b\"invalid\":json\x7d".toList), expect_error := true }
  , { ptype := ("empty_message".toList), command := ("echo".toList), message := [] }
  , { ptype := ("rapid_small".toList), command := ("ping".toList), message := ("quick".toList) }
  , { ptype := ("rapid_medium".toList), command := ("echo".toList), message := (("medium_".toList) ++ List.replicate 50 'z') }
  , { ptype := ("potential_timeout".toList), command := ("slow_process".toList), message := ("timeout_test".toList), timeoutSecs := some 5 }
  , { ptype := ("burst".toList), command := ("ping".toList), message := ("burst_1".toList) }
  , { ptype := ("burst".toList), command := ("get_info".toList), message := ("burst_2".toList) }
  , { ptype := ("burst".toList), command := ("echo".toList), message := ("burst_3".toList) }
  ]

/-- One per-key counter dictionary value of the stress loop: the
three-field records created at src/tests/run_tests.py:614 and 618. -/
structure PCounter where
  total : Nat
  success : Nat
  failed : Nat
deriving DecidableEq

/-- The mutable state of the stress dispatch loop
(src/tests/run_tests.py:549-551, 597-599): the three scalar counters plus
the per-pattern, per-client and per-error-type dictionaries, modelled as
insertion-ordered association lists exactly as Python dicts behave. -/
structure StressState where
  total_requests : Nat
  successful_requests : Nat
  failed_requests : Nat
  pattern_stats : List (Str × PCounter)
  client_stats : List (Str × PCounter)
  error_types : List (Str × Nat)
deriving DecidableEq

/-- The state at the top of run_stress_tests, before any dispatch. -/
def initStress : StressState :=
  { total_requests := 0, successful_requests := 0, failed_requests := 0
    pattern_stats := [], client_stats := [], error_types := [] }

/-- Whether the dictionary has the key. -/
def hasKey (stats : List (Str × PCounter)) (k : Str) : Bool :=
  stats.any (fun e => e.1 == k)

/-- The key-presence guard of src/tests/run_tests.py:613-618: a missing
key is inserted with a fresh zero counter, mirroring dict insertion
order. -/
def ensureKey (stats : List (Str × PCounter)) (k : Str) : List (Str × PCounter) :=
  if hasKey stats k then stats else stats ++ [(k, ⟨0, 0, 0⟩)]

/-- Update the (unique) entry of the dictionary holding the key,
mirroring a Python dict item assignment. -/
def bumpKey (f : PCounter → PCounter) : List (Str × PCounter) → Str → List (Str × PCounter)
  | [], _ => []
  | (k, c) :: rest, key => if k == key then (k, f c) :: rest else (k, c) :: bumpKey f rest key

/-- The error-type tally of src/tests/run_tests.py:639-640:
error_types[t] = error_types.get(t, 0) + 1. -/
def bumpErrorType (ets : List (Str × Nat)) (k : Str) : List (Str × Nat) :=
  if ets.any (fun e => e.1 == k) then
    (ets.map (fun e => if e.1 == k then (e.1, e.2 + 1) else e))
  else ets ++ [(k, 1)]

/-- One iteration of the stress dispatch loop body
(src/tests/run_tests.py:608-640) for a chosen client and pattern, given
the sender response the dispatch produced: ensure both dictionary keys,
bump the three total counters, evaluate the pattern expectation, and bump
either the success or the failed counters (tracking the error type on
failure). -/
def stressStep (s : StressState) (client : Str) (p : Pattern) (r : SenderResponse) :
    StressState :=
  let pt := p.ptype
  let ps0 := ensureKey s.pattern_stats pt
  let cs0 := ensureKey s.client_stats client
  let ps1 := bumpKey (fun c => { c with total := c.total + 1 }) ps0 pt
  let cs1 := bumpKey (fun c => { c with total := c.total + 1 }) cs0 client
  if evaluatePatternResponse p r then
    { total_requests := s.total_requests + 1
      successful_requests := s.successful_requests + 1
      failed_requests := s.failed_requests
      pattern_stats := bumpKey (fun c => { c with success := c.success + 1 }) ps1 pt
      client_stats := bumpKey (fun c => { c with success := c.success + 1 }) cs1 client
      error_types := s.error_types }
  else
    { total_requests := s.total_requests + 1
      successful_requests := s.successful_requests
      failed_requests := s.failed_requests + 1
      pattern_stats := bumpKey (fun c => { c with failed := c.failed + 1 }) ps1 pt
      client_stats := bumpKey (fun c => { c with failed := c.failed + 1 }) cs1 client
      error_types := bumpErrorType s.error_types
        (match r.error_type with | some t => t | none => ("unknown_error".toList)) }

/-- A whole stress run over a trace of dispatch events, each event
recording which client ran which pattern and the response observed; the
loop of src/tests/run_tests.py:601-672 with its timing-driven schedule
abstracted into the trace. -/
def runStress (events : List (Str × Pattern × SenderResponse)) : StressState :=
  events.foldl (fun s e => stressStep s e.1 e.2.1 e.2.2) initStress

/-- Sum of the per-key total counters of a stats dictionary. -/
def sumTotals (stats : List (Str × PCounter)) : Nat :=
  (stats.map (fun e => e.2.total)).sum

/-- Per-key soundness: success plus failed never exceeds total. -/
def statsOk (stats : List (Str × PCounter)) : Prop :=
  ∀ e ∈ stats, e.2.success + e.2.failed ≤ e.2.total

/-- The bookkeeping invariant claimed for StressStatistics. -/
def stressInvariant (s : StressState) : Prop :=
  s.total_requests = sumTotals s.pattern_stats ∧
  s.total_requests = sumTotals s.client_stats ∧
  statsOk s.pattern_stats ∧ statsOk s.client_stats

/-- The five outcome statuses of TestStatus (src/tests/run_tests.py:42-48). -/
inductive TestStatus
  | PASS
  | FAIL
  | SKIP
  | ERROR
  | TIMEOUT
deriving DecidableEq

/-- The overall success rate computed at src/tests/run_tests.py:678,
with the guard giving 0 when no request was made; exact rational
arithmetic stands in for Python floats. -/
def successRate (successful total : Nat) : ℚ :=
  if 0 < total then (successful : ℚ) / (total : ℚ) * 100 else 0

/-- The verdict of src/tests/run_tests.py:681-686: PASS at a success rate
of at least the 95 percent threshold, FAIL below it. -/
def stressVerdict (successful total : Nat) : TestStatus :=
  if successRate successful total ≥ 95 then TestStatus.PASS else TestStatus.FAIL

/-- What one iteration of the start_server readiness poll observes
(src/tests/python/test_orchestrator.py:286-297): whether the socket file
exists and whether proc.poll() reported an exit. -/
structure PollObs where
  socketExists : Bool
  processExited : Bool

/-- How a readiness wait ends. -/
inductive ReadyResult
  | ready
  | exitedEarly
  | timedOut
deriving DecidableEq

/-- The bounded poll loop of TestOrchestrator.start_server
(src/tests/python/test_orchestrator.py:284-302): up to fuel iterations
(100 iterations of 0.1 s against the 10 s budget), checking socket
existence first, then process exit; on exhaustion the process is
terminated (proc.terminate() at line 301).  The second component records
whether the poll terminated the process. -/
def startServerPoll (world : Nat → PollObs) : Nat → Nat → ReadyResult × Bool
  | 0, _ => (ReadyResult.timedOut, true)
  | fuel + 1, i =>
    let o := world i
    if o.socketExists then (ReadyResult.ready, false)
    else if o.processExited then (ReadyResult.exitedEarly, false)
    else startServerPoll world fuel (i + 1)

/-- What one iteration of ServerManager._wait_for_ready observes
(src/tests/library_based_tests/orchestrator/cross_platform_tests.py:456-479):
process exit, what the readline() call at line 465 does, and socket
existence.  stdoutLine is none when that readline never returns — the
process keeps running without ever emitting a complete line — because the
call has no timeout; some line is the line it returned. -/
structure WaitObs where
  processExited : Bool
  stdoutLine : Option Str
  socketExists : Bool

/-- How a _wait_for_ready call ends: either the loop finishes with a
result (and a flag recording whether it terminated the process), or it
is stuck forever inside the blocking readline. -/
inductive WaitOutcome
  | finished (result : ReadyResult) (terminated : Bool)
  | hung
deriving DecidableEq

/-- The poll loop of ServerManager._wait_for_ready
(src/tests/library_based_tests/orchestrator/cross_platform_tests.py:450-482):
process exit fails immediately with the captured output as diagnostic;
then the loop blocks on readline() — a call with NO timeout, so if the
running process never emits a complete line the loop hangs forever, past
any bound, and the socket check at line 473 is never reached (the hung
outcome); when readline does return, a SERVER_READY sentinel or socket
existence succeeds, else the next iteration runs.  On fuel exhaustion
(the 10 s deadline checked between iterations) the function only records
an error message and returns failure — the process is NOT terminated
there. -/
def waitForReady (world : Nat → WaitObs) : Nat → Nat → WaitOutcome
  | 0, _ => WaitOutcome.finished ReadyResult.timedOut false
  | fuel + 1, i =>
    let o := world i
    if o.processExited then WaitOutcome.finished ReadyResult.exitedEarly false
    else
      match o.stdoutLine with
      | none => WaitOutcome.hung
      | some line =>
        if containsSub ("SERVER_READY".toList) line then
          WaitOutcome.finished ReadyResult.ready false
        else if o.socketExists then WaitOutcome.finished ReadyResult.ready false
        else waitForReady world fuel (i + 1)

/-- The filesystem namespace of socket paths, the only shared mutable
resource of the harness. -/
structure FS where
  files : List Str
deriving DecidableEq

/-- Whether a path currently exists. -/
def FS.holds (fs : FS) (p : Str) : Bool :=
  fs.files.any (fun q => q == p)

/-- A successful datagram bind creates the socket file at the path. -/
def FS.create (fs : FS) (p : Str) : FS :=
  { files := p :: fs.files }

/-- os.unlink with FileNotFoundError swallowed, as in the cleanup
finally-blocks: removes the path if present, a no-op otherwise. -/
def FS.removeQuiet (fs : FS) (p : Str) : FS :=
  { files := fs.files.filter (fun q => !(q == p)) }

/-- Which of the fallible steps of one send_message call succeed:
socket creation, bind, sendto, the timed recvfrom, and JSON decoding of
the reply (src/tests/python/performance_benchmark.py:96-136). -/
structure SendWorld where
  sockOk : Bool
  bindOk : Bool
  sendOk : Bool
  recvOk : Bool
  parseOk : Bool
  reply : Str

/-- The outcome PerformanceBenchmark.send_message reports (latency
timing elided). -/
inductive SendResult
  | ok (resp : Str)
  | failed
deriving DecidableEq

/-- PerformanceBenchmark.send_message
(src/tests/python/performance_benchmark.py:96-136) as a filesystem
transformer.  Socket creation precedes the inner try, so its failure
skips the finally-block; once inside, the bind creates the reply socket
file exactly when it succeeds, any step failure (send error, receive
timeout, undecodable reply) raises past the finally-block into the outer
except, and the finally-block always closes the socket and unlinks the
reply path, swallowing FileNotFoundError. -/
def sendMessage (fs : FS) (replyPath : Str) (w : SendWorld) : SendResult × FS :=
  if !w.sockOk then (SendResult.failed, fs)
  else
    let fs1 := if w.bindOk then fs.create replyPath else fs
    let res := if w.bindOk && w.sendOk && w.recvOk && w.parseOk
      then SendResult.ok w.reply else SendResult.failed
    (res, fs1.removeQuiet replyPath)

/-- Which of the fallible steps of one _test_command call succeed; the
final flag is whether the decoded reply carries a status field
(src/tests/python/manifest_validator.py:197-201). -/
structure TestCmdWorld where
  sockOk : Bool
  bindOk : Bool
  sendOk : Bool
  recvOk : Bool
  parseOk : Bool
  hasStatusField : Bool

/-- ManifestValidator._test_command
(src/tests/python/manifest_validator.py:155-215) as a filesystem
transformer, with the same try/finally shape as send_message: every exit
path after the inner try — success, missing status field, timeout, JSON
decode error, other exception — runs the finally-block that unlinks the
reply path. -/
def testCommand (fs : FS) (replyPath : Str) (w : TestCmdWorld) : Bool × FS :=
  if !w.sockOk then (false, fs)
  else
    let fs1 := if w.bindOk then fs.create replyPath else fs
    let ok := w.bindOk && w.sendOk && w.recvOk && w.parseOk && w.hasStatusField
    (ok, fs1.removeQuiet replyPath)

/-- The reply-to path generated per request by
PerformanceBenchmark.send_message
(src/tests/python/performance_benchmark.py:103): the thread identifier
and the microsecond wall-clock timestamp are its only varying inputs. -/
def benchReplyPath (threadId timeMicros : Nat) : Str :=
  ("/tmp/bench_reply_".toList) ++ natStr threadId ++ ('_' :: natStr timeMicros) ++ (".sock".toList)

/-- An in-flight _test_command request: which channel and command it
exercises and the microsecond timestamp at which it was issued. -/
structure InFlightRequest where
  channel : Str
  command : Str
  timeMicros : Nat
deriving DecidableEq

/-- The reply-to path generated per request by
ManifestValidator._test_command
(src/tests/python/manifest_validator.py:160): the microsecond wall-clock
timestamp is its only varying input — the channel and command of the
request do not enter the path. -/
def testCommandReplyPath (r : InFlightRequest) : Str :=
  ("/tmp/test_reply_".toList) ++ natStr r.timeMicros ++ (".sock".toList)

/-- An entry of the harness results list, reduced to the fields the exit
code computation reads (src/tests/run_tests.py:1006-1011). -/
structure OutcomeRec where
  name : Str
  status : TestStatus
deriving DecidableEq

/-- Number of recorded outcomes with the given status, as counted by
generate_report (src/tests/run_tests.py:1007-1011). -/
def countStatus (st : TestStatus) (results : List OutcomeRec) : Nat :=
  (results.filter (fun r => r.status == st)).length

/-- The process exit code chosen by run_tests.py main
(src/tests/run_tests.py:1258): zero exactly when the FAIL count of the
summary is zero. -/
def mainExitCode (results : List OutcomeRec) : Nat :=
  if countStatus TestStatus.FAIL results == 0 then 0 else 1

/-- The process exit code chosen by the library orchestrator main
(src/tests/library_based_tests/orchestrator/test_orchestrator.py:550-555):
one when the summary counts any FAIL or any ERROR, zero otherwise. -/
def libraryMainExitCode (results : List OutcomeRec) : Nat :=
  if countStatus TestStatus.FAIL results > 0 || countStatus TestStatus.ERROR results > 0
  then 1 else 0

/-! ### Helper lemmas -/

/-- The empty needle is contained in every haystack, as for the Python
membership test of an empty string. -/
theorem containsSub_nil (hay : Str) : containsSub [] hay = true := by
  cases hay <;> rfl

/-- After the quiet unlink, the path is gone. -/
theorem holds_removeQuiet (fs : FS) (p : Str) : (fs.removeQuiet p).holds p = false := by
  simp only [FS.holds, FS.removeQuiet]
  induction fs.files with
  | nil => rfl
  | cons q rest ih =>
    cases h : (q == p) <;> simp [List.filter_cons, h, ih]

/-- Two successive in-place updates of the same key collapse to one. -/
theorem bumpKey_bumpKey (f g : PCounter → PCounter) (stats : List (Str × PCounter)) (k : Str) :
    bumpKey g (bumpKey f stats k) k = bumpKey (fun c => g (f c)) stats k := by
  induction stats with
  | nil => rfl
  | cons e rest ih =>
    obtain ⟨k1, c⟩ := e
    by_cases h : (k1 == k) = true
    · simp [bumpKey, h]
    · simp only [bumpKey, h]
      simp only [Bool.false_eq_true, if_false, ih, List.cons.injEq, true_and]

/-- Ensuring a key leaves the sum of totals unchanged. -/
theorem sumTotals_ensureKey (stats : List (Str × PCounter)) (k : Str) :
    sumTotals (ensureKey stats k) = sumTotals stats := by
  unfold ensureKey
  split
  · rfl
  · simp [sumTotals]

/-- Ensuring a key makes it present. -/
theorem hasKey_ensureKey (stats : List (Str × PCounter)) (k : Str) :
    hasKey (ensureKey stats k) k = true := by
  unfold ensureKey
  split
  · assumption
  · simp [hasKey]

/-- An update which leaves a counter's total untouched leaves the sum of
totals untouched. -/
theorem sumTotals_bumpKey_of_total_eq (f : PCounter → PCounter)
    (hf : ∀ c, (f c).total = c.total) (stats : List (Str × PCounter)) (k : Str) :
    sumTotals (bumpKey f stats k) = sumTotals stats := by
  induction stats with
  | nil => rfl
  | cons e rest ih =>
    obtain ⟨k1, c⟩ := e
    by_cases h : (k1 == k) = true
    · simp [bumpKey, h, sumTotals, hf]
    · simp only [bumpKey, h, Bool.false_eq_true, if_false]
      simp only [sumTotals, List.map_cons, List.sum_cons] at ih ⊢
      omega

/-- An update which increments a counter's total by one, applied at a
present key, increments the sum of totals by one. -/
theorem sumTotals_bumpKey_total_succ (f : PCounter → PCounter)
    (hf : ∀ c, (f c).total = c.total + 1) (stats : List (Str × PCounter)) (k : Str)
    (hk : hasKey stats k = true) :
    sumTotals (bumpKey f stats k) = sumTotals stats + 1 := by
  induction stats with
  | nil => simp [hasKey] at hk
  | cons e rest ih =>
    obtain ⟨k1, c⟩ := e
    by_cases h : (k1 == k) = true
    · simp only [bumpKey, h, if_true, sumTotals, List.map_cons, List.sum_cons, hf]
      omega
    · simp only [hasKey, List.any_cons, Bool.or_eq_true] at hk
      rcases hk with hk | hk
      · exact absurd hk h
      · simp only [bumpKey, h, Bool.false_eq_true, if_false]
        have := ih hk
        simp only [sumTotals, List.map_cons, List.sum_cons] at this ⊢
        omega

/-- Ensuring a key preserves per-key soundness: the inserted counter is
all zero. -/
theorem statsOk_ensureKey (stats : List (Str × PCounter)) (k : Str)
    (h : statsOk stats) : statsOk (ensureKey stats k) := by
  unfold ensureKey
  split
  · exact h
  · intro e he
    rcases List.mem_append.mp he with he | he
    · exact h e he
    · simp only [List.mem_singleton] at he
      subst he
      simp

/-- An update that preserves the per-counter bound preserves per-key
soundness. -/
theorem statsOk_bumpKey (f : PCounter → PCounter)
    (hf : ∀ c, c.success + c.failed ≤ c.total → (f c).success + (f c).failed ≤ (f c).total)
    (stats : List (Str × PCounter)) (k : Str) (h : statsOk stats) :
    statsOk (bumpKey f stats k) := by
  induction stats with
  | nil => exact h
  | cons e rest ih =>
    obtain ⟨k1, c⟩ := e
    have hc : c.success + c.failed ≤ c.total := h (k1, c) (List.mem_cons_self _ _)
    have hrest : statsOk rest := fun e he => h e (List.mem_cons_of_mem _ he)
    by_cases hk : (k1 == k) = true
    · simp only [bumpKey, hk, if_true]
      intro e he
      rcases List.mem_cons.mp he with he | he
      · subst he
        exact hf c hc
      · exact hrest e he
    · simp only [bumpKey, hk, Bool.false_eq_true, if_false]
      intro e he
      rcases List.mem_cons.mp he with he | he
      · subst he
        exact hc
      · exact ih hrest e he

/-- Ensuring a key and then bumping its total raises the sum of totals by
one. -/
theorem tallySum (stats : List (Str × PCounter)) (k : Str) (g : PCounter → PCounter)
    (hg : ∀ c, (g c).total = c.total + 1) :
    sumTotals (bumpKey g (ensureKey stats k) k) = sumTotals stats + 1 := by
  rw [sumTotals_bumpKey_total_succ g hg _ _ (hasKey_ensureKey _ _), sumTotals_ensureKey]

/-- Ensuring a key and then applying a bound-preserving update keeps
per-key soundness. -/
theorem tallyOk (stats : List (Str × PCounter)) (k : Str) (g : PCounter → PCounter)
    (hg : ∀ c, c.success + c.failed ≤ c.total → (g c).success + (g c).failed ≤ (g c).total)
    (h : statsOk stats) : statsOk (bumpKey g (ensureKey stats k) k) :=
  statsOk_bumpKey g hg _ _ (statsOk_ensureKey _ _ h)

/-- One iteration of the dispatch loop preserves the bookkeeping
invariant. -/
theorem stressInvariant_step (s : StressState) (client : Str) (p : Pattern)
    (r : SenderResponse) (h : stressInvariant s) :
    stressInvariant (stressStep s client p r) := by
  obtain ⟨h1, h2, h3, h4⟩ := h
  unfold stressStep
  cases hok : evaluatePatternResponse p r <;>
    simp only [hok, Bool.false_eq_true, if_false, if_true] <;>
    refine ⟨?_, ?_, ?_, ?_⟩ <;> dsimp only <;> rw [bumpKey_bumpKey]
  · rw [tallySum _ _ _ (fun c => rfl)]; omega
  · rw [tallySum _ _ _ (fun c => rfl)]; omega
  · exact tallyOk _ _ _ (fun c hc => by dsimp only; omega) h3
  · exact tallyOk _ _ _ (fun c hc => by dsimp only; omega) h4
  · rw [tallySum _ _ _ (fun c => rfl)]; omega
  · rw [tallySum _ _ _ (fun c => rfl)]; omega
  · exact tallyOk _ _ _ (fun c hc => by dsimp only; omega) h3
  · exact tallyOk _ _ _ (fun c hc => by dsimp only; omega) h4

/-- The invariant is preserved along any fold of dispatch steps. -/
theorem stressInvariant_foldl (events : List (Str × Pattern × SenderResponse)) :
    ∀ s : StressState, stressInvariant s →
      stressInvariant (events.foldl (fun s e => stressStep s e.1 e.2.1 e.2.2) s) := by
  induction events with
  | nil => intro s h; exact h
  | cons e rest ih =>
    intro s h
    exact ih _ (stressInvariant_step s e.1 e.2.1 e.2.2 h)

/-- The empty run satisfies the invariant. -/
theorem stressInvariant_init : stressInvariant initStress := by
  refine ⟨rfl, rfl, ?_, ?_⟩ <;> intro e he <;> simp [initStress] at he

/-- The rational success-rate threshold test is the cross-multiplied
counting test. -/
theorem successRate_ge_iff (successful total : Nat) (h : 0 < total) :
    successRate successful total ≥ 95 ↔ 95 * total ≤ 100 * successful := by
  unfold successRate
  rw [if_pos h]
  have ht : (0 : ℚ) < (total : ℚ) := by exact_mod_cast h
  rw [ge_iff_le, div_mul_eq_mul_div, le_div_iff₀ ht, mul_comm ((successful : ℚ)) 100]
  exact_mod_cast Iff.rfl

/-- Reading a rendered decimal digit back. -/
theorem chrVal_digit {d : Nat} (hd : d < 10) : (Char.ofNat (48 + d)).toNat - 48 = d := by
  interval_cases d <;> rfl

/-- Folding the rendered digits most-significant-first recovers the
little-endian digit value. -/
theorem foldr_digits_ofDigits (L : List Nat) (hL : ∀ d ∈ L, d < 10) :
    L.foldr (fun d a => a * 10 + ((Char.ofNat (48 + d)).toNat - 48)) 0 = Nat.ofDigits 10 L := by
  induction L with
  | nil => rfl
  | cons d L ih =>
    have hd : d < 10 := hL d (List.mem_cons_self _ _)
    have hL2 : ∀ x ∈ L, x < 10 := fun x hx => hL x (List.mem_cons_of_mem _ hx)
    simp only [List.foldr_cons, ih hL2, chrVal_digit hd, Nat.ofDigits_cons]
    ring

/-- Decimal parsing, the inverse of natStr. -/
def unrender (s : Str) : Nat :=
  s.foldl (fun a c => a * 10 + (c.toNat - 48)) 0

/-- Rendering a natural number in decimal and parsing it back is the
identity, so the rendering is faithful. -/
theorem unrender_natStr (n : Nat) : unrender (natStr n) = n := by
  unfold natStr
  by_cases h : n = 0
  · subst h
    rfl
  · rw [if_neg h]
    unfold unrender
    rw [List.foldl_reverse, List.foldr_map]
    rw [foldr_digits_ofDigits _ (fun d hd => Nat.digits_lt_base (by norm_num) hd)]
    exact Nat.ofDigits_digits 10 n

/-- Distinct numbers render to distinct decimal strings. -/
theorem natStr_injective : Function.Injective natStr := by
  intro a b hab
  have := congrArg unrender hab
  rwa [unrender_natStr, unrender_natStr] at this

/-- On timeout, the start_server poll has terminated the process. -/
theorem startServerPoll_timedOut (w : Nat → PollObs) :
    ∀ fuel i, (startServerPoll w fuel i).1 = ReadyResult.timedOut →
      (startServerPoll w fuel i).2 = true := by
  intro fuel
  induction fuel with
  | zero => intro i _; rfl
  | succ n ih =>
    intro i h
    by_cases hs : (w i).socketExists = true
    · simp [startServerPoll, hs] at h
    · by_cases he : (w i).processExited = true
      · simp [startServerPoll, hs, he] at h
      · simp only [startServerPoll, Bool.not_eq_true] at h ⊢
        simp only [Bool.not_eq_true] at hs he
        rw [hs, he] at h ⊢
        simp only [Bool.false_eq_true, if_false] at h ⊢
        exact ih (i + 1) h

/-- Whenever the _wait_for_ready poll finishes with a timeout, it has
NOT terminated the process. -/
theorem waitForReady_timedOut (w : Nat → WaitObs) :
    ∀ fuel i b, waitForReady w fuel i = WaitOutcome.finished ReadyResult.timedOut b →
      b = false := by
  intro fuel
  induction fuel with
  | zero =>
    intro i b h
    simp only [waitForReady, WaitOutcome.finished.injEq] at h
    exact h.2.symm
  | succ n ih =>
    intro i b h
    simp only [waitForReady] at h
    split at h
    next hexit => simp at h
    next hexit =>
      split at h
      next hl => exact WaitOutcome.noConfusion h
      next line hl =>
        split at h
        next hsent => simp at h
        next hsent =>
          split at h
          next hsock => simp at h
          next hsock => exact ih (i + 1) b h

/-- A process observed to have exited, with no socket yet, fails the
start_server poll immediately. -/
theorem startServerPoll_exit (w : Nat → PollObs) (fuel i : Nat)
    (h1 : (w i).socketExists = false) (h2 : (w i).processExited = true)
    (hf : 0 < fuel) : (startServerPoll w fuel i).1 = ReadyResult.exitedEarly := by
  cases fuel with
  | zero => exact absurd hf (by omega)
  | succ n => simp [startServerPoll, h1, h2]

/-- A process observed to have exited fails the _wait_for_ready poll
immediately, without terminating anything. -/
theorem waitForReady_exit (w : Nat → WaitObs) (fuel i : Nat)
    (h2 : (w i).processExited = true) (hf : 0 < fuel) :
    waitForReady w fuel i = WaitOutcome.finished ReadyResult.exitedEarly false := by
  cases fuel with
  | zero => exact absurd hf (by omega)
  | succ n => simp [waitForReady, h2]

/-- A running process whose readline never returns hangs the
_wait_for_ready loop forever: the blocking call at
cross_platform_tests.py:465 has no timeout, so the 10 s bound is blown
through and the socket check below it is never reached. -/
theorem waitForReady_hang (w : Nat → WaitObs) (fuel i : Nat)
    (h1 : (w i).processExited = false) (h2 : (w i).stdoutLine = none)
    (hf : 0 < fuel) : waitForReady w fuel i = WaitOutcome.hung := by
  cases fuel with
  | zero => exact absurd hf (by omega)
  | succ n => simp [waitForReady, h1, h2]

/-- If no readiness signal ever arrives and the process never exits, the
start_server poll runs out its bounded fuel, reports timeout and
terminates the process — it never hangs. -/
theorem startServerPoll_quiet (w : Nat → PollObs) :
    ∀ fuel i, (∀ j, (w (i + j)).socketExists = false ∧ (w (i + j)).processExited = false) →
      startServerPoll w fuel i = (ReadyResult.timedOut, true) := by
  intro fuel
  induction fuel with
  | zero => intro i _; rfl
  | succ n ih =>
    intro i h
    have h0 := h 0
    simp only [Nat.add_zero] at h0
    simp only [startServerPoll, h0.1, h0.2, Bool.false_eq_true, if_false]
    refine ih (i + 1) (fun j => ?_)
    have hj := h (j + 1)
    rwa [show i + (j + 1) = i + 1 + j by omega] at hj


/-! ### Claim theorems -/

/-- Claim C2: at every point during a stress run (every prefix of the
dispatch trace) and at its end, the total request counter equals the sum
of the per-pattern totals and the sum of the per-client totals, and for
every pattern-type and client key, success plus failed never exceeds that
key's total. -/
theorem c2_stress_counters_invariant
    (events : List (Str × Pattern × SenderResponse)) (n : Nat) :
    stressInvariant (runStress (events.take n)) := by
  unfold runStress
  exact stressInvariant_foldl _ _ stressInvariant_init

/-- The ping pattern heading the stress catalog
(src/tests/run_tests.py:558). -/
def pingPattern : Pattern :=
  { ptype := ("request_reply".toList), command := ("ping".toList), message := ("hello".toList) }

/-- A one-dispatch trace: the go client runs the ping pattern and the
sender exits 0 printing an explicit success marker and a pong. -/
def wEvent : Str × Pattern × SenderResponse :=
  (("go".toList), pingPattern,
    mkEnhancedResponse pingPattern 0 (("Response: Success=true Result: pong".toList)) [])

/-- Claim C3: for every completed stress run with at least one request,
the verdict is PASS exactly when the overall success rate — successful
over total, as a percentage — reaches the 95 percent threshold, and FAIL
otherwise. -/
theorem c3_stress_verdict_threshold (events : List (Str × Pattern × SenderResponse))
    (h : 0 < (runStress events).total_requests) :
    stressVerdict (runStress events).successful_requests (runStress events).total_requests
        = TestStatus.PASS ↔
      95 * (runStress events).total_requests ≤ 100 * (runStress events).successful_requests := by
  rw [← successRate_ge_iff _ _ h]
  unfold stressVerdict
  constructor
  · intro hpass
    by_contra hc
    rw [if_neg hc] at hpass
    exact TestStatus.noConfusion hpass
  · intro hge
    rw [if_pos hge]

/-- Witness for C3 at a concrete one-request run that passes. -/
theorem c3_stress_verdict_threshold_witness :
    0 < (runStress [wEvent]).total_requests ∧
    stressVerdict (runStress [wEvent]).successful_requests
      (runStress [wEvent]).total_requests = TestStatus.PASS :=
  ⟨by decide, (c3_stress_verdict_threshold [wEvent] (by decide)).mpr (by decide)⟩

/-- Claim C7: any pattern with expect_reply and without expect_error that
the evaluator classifies as a pattern success satisfies its structural
check — an echo reply contains the original payload verbatim, a ping
reply carries a pong or success marker. -/
theorem c7_structural_check (p : Pattern) (r : SenderResponse)
    (hrep : p.expect_reply = true) (herr : p.expect_error = false)
    (hev : evaluatePatternResponse p r = true) :
    (p.command = ("echo".toList) → containsSub p.message r.stdout = true) ∧
    (p.command = ("ping".toList) →
      (containsSub ("pong".toList) (lowerStr r.stdout) ||
       containsSub ("success".toList) (lowerStr r.stdout)) = true) := by
  cases hr : r.success with
  | false =>
    exfalso
    simp [evaluatePatternResponse, herr, hrep, hr] at hev
  | true =>
    constructor
    · intro hcmd
      simp +decide [evaluatePatternResponse, herr, hrep, hr, hcmd] at hev
      exact hev
    · intro hcmd
      simp +decide [evaluatePatternResponse, herr, hrep, hr, hcmd] at hev
      rw [Bool.or_eq_true]
      exact hev

/-- Witness for C7 at a concrete passing ping exchange. -/
theorem c7_structural_check_witness :
    (containsSub ("pong".toList)
        (lowerStr (mkEnhancedResponse pingPattern 0 (("PONG!".toList)) []).stdout) ||
      containsSub ("success".toList)
        (lowerStr (mkEnhancedResponse pingPattern 0 (("PONG!".toList)) []).stdout)) = true :=
  (c7_structural_check pingPattern (mkEnhancedResponse pingPattern 0 (("PONG!".toList)) [])
    rfl rfl (by decide)).2 rfl

/-- Claim C8: a reply socket file created by a send_message or
_test_command call is gone on every exit path — success, structured
failure, receive timeout and parse failure alike — provided the path was
fresh when the call started. -/
theorem c8_reply_socket_cleanup (fs : FS) (path : Str) (w : SendWorld) (w2 : TestCmdWorld)
    (h : fs.holds path = false) :
    (sendMessage fs path w).2.holds path = false ∧
    (testCommand fs path w2).2.holds path = false := by
  constructor
  · unfold sendMessage
    split
    · exact h
    · exact holds_removeQuiet _ _
  · unfold testCommand
    split
    · exact h
    · exact holds_removeQuiet _ _

/-- Witness for C8 on an empty filesystem, a concrete benchmark reply
path, a timed-out send and a successful command test. -/
theorem c8_reply_socket_cleanup_witness :
    (sendMessage { files := [] } (benchReplyPath 7 1700000000000000)
        { sockOk := true, bindOk := true, sendOk := true, recvOk := false,
          parseOk := false, reply := [] }).2.holds
      (benchReplyPath 7 1700000000000000) = false ∧
    (testCommand { files := [] } (benchReplyPath 7 1700000000000000)
        { sockOk := true, bindOk := true, sendOk := true, recvOk := true,
          parseOk := true, hasStatusField := true }).2.holds
      (benchReplyPath 7 1700000000000000) = false :=
  c8_reply_socket_cleanup _ _ _ _ rfl

/-- The empty-payload echo pattern of the stress catalog
(src/tests/run_tests.py:578). -/
def emptyEchoPattern : Pattern :=
  { ptype := ("empty_message".toList), command := ("echo".toList), message := [] }

/-- Claim C10: the empty-payload echo pattern is in the catalog, and for
it the evaluator's containment check is vacuous, so the classification
equals the response's success flag whatever the reply content. -/
theorem c10_empty_echo_vacuous :
    emptyEchoPattern ∈ testPatterns ∧
    ∀ r : SenderResponse, evaluatePatternResponse emptyEchoPattern r = r.success := by
  constructor
  · decide
  · intro r
    cases hr : r.success <;>
      simp +decide [evaluatePatternResponse, emptyEchoPattern, hr, containsSub_nil]

/-- The malformed-JSON validate pattern of the stress catalog
(src/tests/run_tests.py:577). -/
def malformedJsonPattern : Pattern :=
  { ptype := ("malformed_json".toList), command := ("validate".toList),
    message := ("\x7b\"invalid\":json\x7d".toList), expect_error := true }

/-- A completed round trip for that pattern: the sender exits 0 and the
captured reply both reports the envelope-level failure marker and names
the expected domain fault. -/
def c1FailingStdout : Str :=
  ("Response: Success=false Error: invalid json".toList)

/-- Claim C1 (code-bug evidence): on a completed round trip (exit code 0,
so cli_success holds) whose reply explicitly carries a validation-failure
marker, the evaluator still records pattern FAILURE, because the
malformed-JSON branch tests the reply-level success marker where its own
comment and local name cli_succeeded call for the CLI result. -/
theorem c1_malformed_json_code_bug :
    malformedJsonPattern ∈ testPatterns ∧
    (mkEnhancedResponse malformedJsonPattern 0 c1FailingStdout []).cli_success = true ∧
    validationFailedMarker c1FailingStdout = true ∧
    evaluatePatternResponse malformedJsonPattern
      (mkEnhancedResponse malformedJsonPattern 0 c1FailingStdout []) = false := by
  refine ⟨by decide, rfl, by decide, by decide⟩

/-- A well-formed JSON reply output with no Response: Success= marker. -/
def c4Stdout : Str := ("\x7b\"result\": \"ok\"\x7d".toList)

/-- Claim C4 counterexample: a sender that exits 0 with well-formed output
carrying no explicit success marker is nonetheless classified as a
protocol success — the classifier defaults to success when the marker is
absent. -/
theorem c4_protocol_success_counterexample :
    findSuccessMarker c4Stdout = none ∧ socketSuccess 0 c4Stdout = true := by
  refine ⟨by decide, by decide⟩

/-- Claim C4 amended: an exit-0 invocation is a protocol success iff its
output is non-empty and either carries no Response: Success= marker
(absence defaults to success) or its first marker reads true
case-insensitively; a nonzero exit is never a protocol success. -/
theorem c4_protocol_success_amended (rc : Int) (out : Str) :
    (rc = 0 → findSuccessMarker out = none → socketSuccess rc out = !out.isEmpty) ∧
    (rc = 0 → ∀ cap, findSuccessMarker out = some cap →
      socketSuccess rc out = (!out.isEmpty && (lowerStr cap == ("true".toList)))) ∧
    (rc ≠ 0 → socketSuccess rc out = false) := by
  refine ⟨?_, ?_, ?_⟩
  · intro h0 hm
    subst h0
    cases he : out.isEmpty <;> simp [socketSuccess, hm, he]
  · intro h0 cap hm
    subst h0
    cases he : out.isEmpty <;> simp [socketSuccess, hm, he]
  · intro h0
    simp [socketSuccess, h0]

/-- Witness for the amended C4: an output whose marker reads TRUE is
classified as a protocol success. -/
theorem c4_protocol_success_amended_witness :
    socketSuccess 0 (("Response: Success=TRUE".toList)) = true := by
  have h := (c4_protocol_success_amended 0 (("Response: Success=TRUE".toList))).2.1 rfl
    (("TRUE".toList)) (by decide)
  rw [h]
  decide

/-- Claim C5 counterexample, refuting both universal parts of the claim
for ServerManager._wait_for_ready: a chatty server that keeps running
without ever printing the sentinel or creating its socket makes the poll
run out its timeout and return failure with the process left running
(not terminated); and a running server that never emits a complete line
hangs the poll forever inside the untimed readline — it does not return
failure within the bounded timeout. -/
theorem c5_readiness_counterexample :
    (waitForReady
        (fun _ => { processExited := false, stdoutLine := some ("log".toList),
                    socketExists := false }) 100 0
      = WaitOutcome.finished ReadyResult.timedOut false) ∧
    (waitForReady
        (fun _ => { processExited := false, stdoutLine := none,
                    socketExists := false }) 100 0
      = WaitOutcome.hung) := by
  refine ⟨by decide, by decide⟩

/-- Claim C5 amended: TestOrchestrator.start_server's poll satisfies the
claim in full — it fails on process exit immediately, runs out its
bounded fuel and terminates the process when no signal ever arrives, and
never reports a timeout without having terminated the process.
ServerManager._wait_for_ready fails immediately (without terminating
anything) when the process has exited, never terminates the process when
it finishes with a timeout, and, because its readline has no timeout,
hangs forever when the running process emits no complete line — its
bounded-timeout guarantee fails. -/
theorem c5_readiness_amended (w : Nat → PollObs) (w2 : Nat → WaitObs) (fuel i : Nat) :
    ((startServerPoll w fuel i).1 = ReadyResult.timedOut → (startServerPoll w fuel i).2 = true) ∧
    (∀ b, waitForReady w2 fuel i = WaitOutcome.finished ReadyResult.timedOut b → b = false) ∧
    ((w i).socketExists = false → (w i).processExited = true → 0 < fuel →
      (startServerPoll w fuel i).1 = ReadyResult.exitedEarly) ∧
    ((w2 i).processExited = true → 0 < fuel →
      waitForReady w2 fuel i = WaitOutcome.finished ReadyResult.exitedEarly false) ∧
    ((∀ j, (w (i + j)).socketExists = false ∧ (w (i + j)).processExited = false) →
      startServerPoll w fuel i = (ReadyResult.timedOut, true)) ∧
    ((w2 i).processExited = false → (w2 i).stdoutLine = none → 0 < fuel →
      waitForReady w2 fuel i = WaitOutcome.hung) :=
  ⟨startServerPoll_timedOut w fuel i,
   fun b h => waitForReady_timedOut w2 fuel i b h,
   fun h1 h2 h3 => startServerPoll_exit w fuel i h1 h2 h3,
   fun h1 h2 => waitForReady_exit w2 fuel i h1 h2,
   startServerPoll_quiet w fuel i,
   fun h1 h2 h3 => waitForReady_hang w2 fuel i h1 h2 h3⟩

/-- Witness for the amended C5 on concrete worlds: a silent never-exiting
server times out start_server with termination, an exited server fails
_wait_for_ready immediately, and a line-less running server hangs it. -/
theorem c5_readiness_amended_witness :
    startServerPoll (fun _ => { socketExists := false, processExited := false }) 100 0
      = (ReadyResult.timedOut, true) ∧
    waitForReady
        (fun _ => { processExited := true, stdoutLine := some [], socketExists := false }) 50 0
      = WaitOutcome.finished ReadyResult.exitedEarly false ∧
    waitForReady
        (fun _ => { processExited := false, stdoutLine := none, socketExists := false }) 77 0
      = WaitOutcome.hung :=
  ⟨(c5_readiness_amended (fun _ => ⟨false, false⟩)
      (fun _ => ⟨false, none, false⟩) 100 0).2.2.2.2.1 (fun j => ⟨rfl, rfl⟩),
   (c5_readiness_amended (fun _ => ⟨false, false⟩)
      (fun _ => ⟨true, some [], false⟩) 50 0).2.2.2.1 rfl (by decide),
   (c5_readiness_amended (fun _ => ⟨false, false⟩)
      (fun _ => ⟨false, none, false⟩) 77 0).2.2.2.2.2 rfl rfl (by decide)⟩

/-- A _test_command request for system.ping at a fixed microsecond. -/
def reqPing : InFlightRequest :=
  { channel := ("system".toList), command := ("ping".toList), timeMicros := 1700000000000000 }

/-- A distinct _test_command request, system.echo, issued in the very same
microsecond. -/
def reqEcho : InFlightRequest :=
  { channel := ("system".toList), command := ("echo".toList), timeMicros := 1700000000000000 }

/-- Claim C6 counterexample: two distinct requests issued at the same
instant receive the SAME reply path from _test_command, whose path embeds
only the timestamp. -/
theorem c6_reply_path_counterexample :
    reqPing ≠ reqEcho ∧ testCommandReplyPath reqPing = testCommandReplyPath reqEcho := by
  refine ⟨by decide, rfl⟩

/-- Claim C6 amended: the generators produce distinct paths whenever their
varying inputs differ — distinct microsecond timestamps give distinct
_test_command paths, and for a fixed thread distinct timestamps give
distinct send_message paths — but requests sharing those inputs collide. -/
theorem c6_reply_path_amended (r1 r2 : InFlightRequest) (tid t1 t2 : Nat) :
    (r1.timeMicros ≠ r2.timeMicros → testCommandReplyPath r1 ≠ testCommandReplyPath r2) ∧
    (t1 ≠ t2 → benchReplyPath tid t1 ≠ benchReplyPath tid t2) := by
  constructor
  · intro hne heq
    unfold testCommandReplyPath at heq
    have h1 := List.append_cancel_right heq
    have h2 := List.append_cancel_left h1
    exact hne (natStr_injective h2)
  · intro hne heq
    unfold benchReplyPath at heq
    have h1 := List.append_cancel_right heq
    have h2 := List.append_cancel_left h1
    have h3 : natStr t1 = natStr t2 := by injection h2
    exact hne (natStr_injective h3)

/-- Witness for the amended C6: one microsecond apart, the paths differ. -/
theorem c6_reply_path_amended_witness :
    testCommandReplyPath reqPing ≠ testCommandReplyPath
      { channel := ("system".toList), command := ("ping".toList),
        timeMicros := 1700000000000001 } :=
  (c6_reply_path_amended reqPing
    { channel := ("system".toList), command := ("ping".toList),
      timeMicros := 1700000000000001 } 0 0 1).1 (by decide)

/-- A results list holding a single ERROR outcome and no FAIL. -/
def errorOnlyResults : List OutcomeRec :=
  [{ name := ("cross_platform_go_to_rust".toList), status := TestStatus.ERROR }]

/-- Claim C9 counterexample: a run that recorded an ERROR outcome (and no
FAIL) still exits 0 from run_tests.py main — the exit code ignores ERROR
and TIMEOUT outcomes. -/
theorem c9_exit_code_counterexample :
    countStatus TestStatus.ERROR errorOnlyResults = 1 ∧
    mainExitCode errorOnlyResults = 0 := by
  refine ⟨by decide, by decide⟩

/-- Claim C9 amended: run_tests.py main reports exit 0 exactly when no
FAIL outcome was recorded (ERROR and TIMEOUT outcomes do not affect its
exit code), and the library orchestrator main reports exit 0 exactly when
neither a FAIL nor an ERROR outcome was recorded. -/
theorem c9_exit_code_amended (results : List OutcomeRec) :
    (mainExitCode results = 0 ↔ ∀ r ∈ results, r.status ≠ TestStatus.FAIL) ∧
    (libraryMainExitCode results = 0 ↔
      ∀ r ∈ results, r.status ≠ TestStatus.FAIL ∧ r.status ≠ TestStatus.ERROR) := by
  have hcount : ∀ st : TestStatus,
      (countStatus st results = 0 ↔ ∀ r ∈ results, r.status ≠ st) := by
    intro st
    unfold countStatus
    rw [List.length_eq_zero, List.filter_eq_nil_iff]
    constructor
    · intro h r hr hst
      exact h r hr (by simp [hst])
    · intro h r hr hst
      exact h r hr (by simpa using hst)
  have hmain : mainExitCode results = 0 ↔ countStatus TestStatus.FAIL results = 0 := by
    unfold mainExitCode
    split
    next hc => simp only [beq_iff_eq] at hc; simp [hc]
    next hc => simp only [beq_iff_eq] at hc; simp [hc]
  have hlib : libraryMainExitCode results = 0 ↔
      (countStatus TestStatus.FAIL results = 0 ∧ countStatus TestStatus.ERROR results = 0) := by
    unfold libraryMainExitCode
    split
    next hc =>
      simp only [Bool.or_eq_true, decide_eq_true_eq] at hc
      constructor
      · intro h10
        exact absurd h10 (by omega)
      · intro ⟨ha, hb⟩
        omega
    next hc =>
      simp only [Bool.or_eq_true, decide_eq_true_eq, not_or] at hc
      constructor
      · intro _
        omega
      · intro _
        rfl
  constructor
  · rw [hmain, hcount]
  · rw [hlib, hcount, hcount]
    constructor
    · intro ⟨ha, hb⟩ r hr
      exact ⟨ha r hr, hb r hr⟩
    · intro h
      exact ⟨fun r hr => (h r hr).1, fun r hr => (h r hr).2⟩

end Janus
